import Mathlib

/-!
Verification of the readability preference panel (a single client page built
around the hook `useSafeLocalStorage`).  The development embeds:

* the nine preference cells created by `Page` (source lines 38-46), each a
  `useSafeLocalStorage` hook holding a value of the dynamic JSON type that the
  untyped `JSON.parse(raw) as T` cast admits at runtime;
* the hydration effect of `useSafeLocalStorage` (source lines 12-22);
* the persistence effect of `useSafeLocalStorage` (source lines 24-32);
* the preset table `presets` (source lines 63-76);
* the style projection effects (source lines 48-61).

Raw localStorage strings and `JSON.parse` are modelled by their observable
outcome per key: the read either finds no record, throws, finds a record that
fails to parse, or finds a record parsing to a JSON value.  `JSON.stringify`
followed by `JSON.parse` is the identity on the JSON values modelled here, so
a successful write of value `v` is modelled as installing a record parsing to
`v`.
-/

/-- Runtime JSON values, as produced by `JSON.parse`.  The page's state cells
are dynamically typed at runtime because `JSON.parse(raw) as T` performs no
check, so every cell holds a `JsonVal`.  Scalar JSON values suffice here: no
function of the source ever inspects the structure of a parsed value, so
compound values would flow through the model identically. -/
inductive JsonVal where
  | num (q : ℚ)
  | str (s : String)
  | jbool (b : Bool)
  | jnull
  deriving DecidableEq, Repr

/-- The nine preference cells created in `Page` (source lines 38-46). -/
inductive PrefKey where
  | theme
  | fontFamily
  | fontSize
  | lineHeight
  | letterSpacing
  | wordSpacing
  | maxLineWidth
  | paragraphSpacing
  | inputText
  deriving DecidableEq, Repr, Fintype

/-- The namespaced localStorage key each hook is given (source lines 38-46). -/
def storageKey : PrefKey → String
  | .theme => "readable:theme"
  | .fontFamily => "readable:font"
  | .fontSize => "readable:fontSize"
  | .lineHeight => "readable:lineHeight"
  | .letterSpacing => "readable:letterSpacing"
  | .wordSpacing => "readable:wordSpacing"
  | .maxLineWidth => "readable:maxWidth"
  | .paragraphSpacing => "readable:paraSpacing"
  | .inputText => "readable:text"

/-- The in-memory snapshot: the current value of each hook's state cell. -/
def Memory : Type := PrefKey → JsonVal

/-- The initial values passed to the nine hooks (source lines 38-46). -/
def initialState : Memory
  | .theme => .str "light"
  | .fontFamily => .str "system"
  | .fontSize => .num 18
  | .lineHeight => .num 1.65
  | .letterSpacing => .num 0
  | .wordSpacing => .num 0
  | .maxLineWidth => .num 68
  | .paragraphSpacing => .num 0.75
  | .inputText => .str ""

/-- `get(key)`: reading a hook's current state value; never fails. -/
def get (s : Memory) (k : PrefKey) : JsonVal := s k

/-- A hook's `setValue`: replaces the in-memory value of one cell, leaving
every other cell unchanged (source line 10). -/
def setPref (s : Memory) (k : PrefKey) (v : JsonVal) : Memory :=
  fun k2 => if k2 = k then v else s k2

/-- Outcome of reading one key's durable record, covering every path of the
hydration effect (source lines 12-22): `getItem` returns null (`absent`),
`getItem` throws (`readFail`), the raw string is present but `JSON.parse`
throws (`corrupt`), or the raw string parses to a JSON value (`stored`). -/
inductive Cell where
  | absent
  | readFail
  | corrupt
  | stored (v : JsonVal)
  deriving DecidableEq, Repr

/-- The durable storage backend, per localStorage key string. -/
def Storage : Type := String → Cell

/-- The hydration effect of one `useSafeLocalStorage` hook (source lines
12-22): when the raw record exists and parses, `setValue(JSON.parse(raw))`
replaces the cell's value verbatim; a null record, a throwing read, or a
parse failure is caught and leaves the cell untouched. -/
def hydrateKey (c : Cell) (cur : JsonVal) : JsonVal :=
  match c with
  | .stored v => v
  | _ => cur

/-- Hydration of the whole page: each hook runs its own read effect
independently on its own key (source lines 12-22, instantiated nine times at
source lines 38-46). -/
def hydrate (st : Storage) (s : Memory) : Memory :=
  fun k => hydrateKey (st (storageKey k)) (s k)

/-- The persistence effect of one hook (source lines 24-32):
`setItem(key, JSON.stringify(value))` inside try/catch.  `writeOk` is whether
`setItem` succeeds; a throw is caught and the backend is unchanged. -/
def persistKey (writeOk : Bool) (st : Storage) (k : PrefKey) (v : JsonVal) :
    Storage :=
  if writeOk then
    fun key => if key = storageKey k then Cell.stored v else st key
  else st

/-- A `set` on one cell together with the persist effect it schedules
(source lines 10 and 24-32): the in-memory cell is replaced, then the new
value is written durably (or the write failure is swallowed). -/
def setAndPersist (writeOk : Bool) (st : Storage) (s : Memory) (k : PrefKey)
    (v : JsonVal) : Memory × Storage :=
  (setPref s k v, persistKey writeOk st k v)

/-- Modelled from the spec: clamping a value into the key's declared domain
(spec section 3's domain table).  The source contains no such function; this
definition exists only to compare the spec's claimed clamping behaviour with
the source's verbatim behaviour. -/
def specClamp (k : PrefKey) (v : JsonVal) : JsonVal :=
  match k, v with
  | .fontSize, .num q => .num (max 14 (min 26 q))
  | .lineHeight, .num q => .num (max 1.2 (min 2.0 q))
  | .letterSpacing, .num q => .num (max (-0.02) (min 0.1 q))
  | .wordSpacing, .num q => .num (max 0 (min 6 q))
  | .maxLineWidth, .num q => .num (max 50 (min 85 q))
  | .paragraphSpacing, .num q => .num (max 0.4 (min 1.4 q))
  | _, w => w

/-- The body of the `Default` preset button (source lines 64-66): the eight
setter calls in source order.  `inputText` has no setter call. -/
def presetDefault (s : Memory) : Memory :=
  setPref (setPref (setPref (setPref (setPref (setPref (setPref (setPref s
    .fontFamily (.str "system")) .fontSize (.num 18)) .lineHeight (.num 1.65))
    .letterSpacing (.num 0)) .wordSpacing (.num 0)) .maxLineWidth (.num 68))
    .paragraphSpacing (.num 0.75)) .theme (.str "light")

/-- The body of the `Reader` preset button (source lines 67-69). -/
def presetReader (s : Memory) : Memory :=
  setPref (setPref (setPref (setPref (setPref (setPref (setPref (setPref s
    .fontFamily (.str "system")) .fontSize (.num 19)) .lineHeight (.num 1.7))
    .letterSpacing (.num 0.005)) .wordSpacing (.num 1)) .maxLineWidth (.num 65))
    .paragraphSpacing (.num 0.9)) .theme (.str "light")

/-- The body of the `Dyslexia-friendly` preset button (source lines 70-72). -/
def presetDyslexiaFriendly (s : Memory) : Memory :=
  setPref (setPref (setPref (setPref (setPref (setPref (setPref (setPref s
    .fontFamily (.str "atkinson")) .fontSize (.num 20)) .lineHeight (.num 1.8))
    .letterSpacing (.num 0.02)) .wordSpacing (.num 2)) .maxLineWidth (.num 60))
    .paragraphSpacing (.num 1.0)) .theme (.str "light")

/-- The body of the `Large print` preset button (source lines 73-75). -/
def presetLargePrint (s : Memory) : Memory :=
  setPref (setPref (setPref (setPref (setPref (setPref (setPref (setPref s
    .fontFamily (.str "system")) .fontSize (.num 22)) .lineHeight (.num 1.9))
    .letterSpacing (.num 0.01)) .wordSpacing (.num 1)) .maxLineWidth (.num 58))
    .paragraphSpacing (.num 1.1)) .theme (.str "high-contrast")

/-- The record `presets` (source lines 63-76): a table from preset name to
the snapshot transformation its button body performs. -/
def presets : List (String × (Memory → Memory)) :=
  [("Default", presetDefault),
   ("Reader", presetReader),
   ("Dyslexia-friendly", presetDyslexiaFriendly),
   ("Large print", presetLargePrint)]

/-- Applying a preset by name, as done by `presets[name]()` (source line
147).  An unknown name has no entry in the record, so the call throws
(`undefined` is not a function); the thrown error is modelled as the
`UnknownPreset` error result of the spec's error taxonomy. -/
def applyPreset (name : String) (s : Memory) : Except String Memory :=
  match presets.lookup name with
  | some f => .ok (f s)
  | none => .error "UnknownPreset"

/-- A well-typed preference snapshot, the input of the style projection
(spec: every valid snapshot).  Numeric preferences are rationals; `theme`
and `fontFamily` are the string values the controls produce. -/
structure Snapshot where
  theme : String
  fontFamily : String
  fontSize : ℚ
  lineHeight : ℚ
  letterSpacing : ℚ
  wordSpacing : ℚ
  maxWidthCh : ℚ
  paraSpacingEm : ℚ
  inputText : String
  deriving DecidableEq, Repr

/-- The style variables written to the document root by the projection
effect (source lines 52-61), one field per `setProperty` call. -/
structure StyleVars where
  readerFont : String
  readerFontSize : String
  readerLineHeight : String
  readerLetterSpacing : String
  readerWordSpacing : String
  readerMaxWidth : String
  readerParagraphSpacing : String
  deriving DecidableEq, Repr

/-- Everything the two projection effects write to the document root: the
`data-theme` attribute (source lines 48-50) and the style variables (source
lines 52-61). -/
structure RootScope where
  dataTheme : String
  vars : StyleVars
  deriving DecidableEq, Repr

/-- The style projection (source lines 48-61).  `numStr` is the JavaScript
number-to-string rendering used by the template literals and by
`String(lineHeight)`; the projection is parametric in it. -/
def project (numStr : ℚ → String) (s : Snapshot) : RootScope :=
  { dataTheme := s.theme
    vars :=
      { readerFont :=
          if s.fontFamily = "atkinson" then "var(--font-atkinson), var(--font-sans)"
          else "var(--font-sans)"
        readerFontSize := numStr s.fontSize ++ "px"
        readerLineHeight := numStr s.lineHeight
        readerLetterSpacing := numStr s.letterSpacing ++ "em"
        readerWordSpacing := numStr s.wordSpacing ++ "px"
        readerMaxWidth := numStr s.maxWidthCh ++ "ch"
        readerParagraphSpacing := numStr s.paraSpacingEm ++ "em" } }

/-- A storage backend with one corrupt record and one readable record, used
to exhibit per-key isolation of hydration failures. -/
def mixedStorage : Storage := fun key =>
  if key = "readable:fontSize" then Cell.corrupt
  else if key = "readable:theme" then Cell.stored (JsonVal.str "dark")
  else Cell.absent

theorem storageKey_injective (k1 k2 : PrefKey) (h : storageKey k1 = storageKey k2) :
    k1 = k2 := by
  revert h; revert k2; revert k1; decide

theorem get_def (s : Memory) (k : PrefKey) : get s k = s k := rfl

/-- C1, counterexample: the claim says `set(k, v); get(k)` equals `v`
clamped to `k`'s domain, with out-of-domain values sent to the nearest
boundary.  At `k = fontSize`, `v = 100` (domain `[14, 26]`), the code
returns `100` verbatim, not the boundary `26`. -/
theorem C1_counterexample :
    get (setPref initialState PrefKey.fontSize (JsonVal.num 100)) PrefKey.fontSize
      ≠ specClamp PrefKey.fontSize (JsonVal.num 100) := by decide

/-- C1, amended: after `set(k, v)`, `get(k)` equals `v` verbatim, for every
value `v`, whether inside or outside the key's declared domain — the store
applies no clamping. -/
theorem C1_set_get_verbatim (s : Memory) (k : PrefKey) (v : JsonVal) :
    get (setPref s k v) k = v := by
  simp [get_def, setPref]

/-- C2, counterexample: the claim says hydration clamps the parsed value
into the key's declared domain before overwriting the in-memory value.  A
persisted record for `fontSize` parsing to `100` hydrates to `100` verbatim,
not to the clamped `26`. -/
theorem C2_counterexample :
    hydrate
      (fun key => if key = "readable:fontSize" then Cell.stored (JsonVal.num 100) else Cell.absent)
      initialState PrefKey.fontSize
      ≠ specClamp PrefKey.fontSize (JsonVal.num 100) := by decide

/-- C2, amended: for every key whose persisted record is successfully read
and parsed, hydration overwrites the in-memory value for that key only —
with the parsed value verbatim, no clamping applied. -/
theorem C2_hydrate_overwrites_key_only (s : Memory) (k : PrefKey) (v : JsonVal) :
    hydrate (fun key => if key = storageKey k then Cell.stored v else Cell.absent) s k = v ∧
    ∀ k2 : PrefKey, k2 ≠ k →
      hydrate (fun key => if key = storageKey k then Cell.stored v else Cell.absent) s k2 = s k2 := by
  constructor
  · simp [hydrate, hydrateKey]
  · intro k2 hne
    have hkey : storageKey k2 ≠ storageKey k := fun he => hne (storageKey_injective k2 k he)
    simp [hydrate, hydrateKey, hkey]

/-- Witness for C2: a record for `fontSize` parsing to `100` hydrates that
key to `100` and leaves `theme` at its current value. -/
theorem C2_hydrate_overwrites_key_only_witness :
    hydrate
      (fun key => if key = storageKey PrefKey.fontSize then Cell.stored (JsonVal.num 100) else Cell.absent)
      initialState PrefKey.fontSize = JsonVal.num 100 ∧
    hydrate
      (fun key => if key = storageKey PrefKey.fontSize then Cell.stored (JsonVal.num 100) else Cell.absent)
      initialState PrefKey.theme = initialState PrefKey.theme :=
  ⟨(C2_hydrate_overwrites_key_only initialState PrefKey.fontSize (JsonVal.num 100)).1,
   (C2_hydrate_overwrites_key_only initialState PrefKey.fontSize (JsonVal.num 100)).2
     PrefKey.theme (by decide)⟩

/-- C3, counterexample: the claim says the round trip yields
`get(k) == clamp(v)`.  Setting `fontSize` to the out-of-domain `100`,
persisting successfully, discarding memory, and re-hydrating yields `100`
verbatim, not the clamped `26`. -/
theorem C3_counterexample :
    get (hydrate
          (setAndPersist true (fun _ => Cell.absent) initialState
            PrefKey.fontSize (JsonVal.num 100)).2
          initialState)
        PrefKey.fontSize
      ≠ specClamp PrefKey.fontSize (JsonVal.num 100) := by decide

/-- C3, amended: `set(k, v)` followed by discarding the in-memory store and
re-hydrating from the same backend yields `get(k) == v` (verbatim, not
clamped) for every key whose persist completed before the restart. -/
theorem C3_round_trip_verbatim (st : Storage) (s : Memory) (k : PrefKey) (v : JsonVal) :
    get (hydrate (setAndPersist true st s k v).2 initialState) k = v := by
  simp [get_def, hydrate, hydrateKey, setAndPersist, persistKey]

/-- C4: hydration failures are isolated per key — a key whose record is
absent, whose read throws, or whose record fails to parse keeps its current
in-memory value, while every key whose record reads and parses successfully
is restored to its persisted value. -/
theorem C4_hydration_isolation (st : Storage) (s : Memory) (k : PrefKey)
    (h : st (storageKey k) = Cell.absent ∨ st (storageKey k) = Cell.readFail ∨
      st (storageKey k) = Cell.corrupt) :
    hydrate st s k = s k ∧
    ∀ (k2 : PrefKey) (w : JsonVal),
      st (storageKey k2) = Cell.stored w → hydrate st s k2 = w := by
  constructor
  · rcases h with h | h | h <;> simp [hydrate, h, hydrateKey]
  · intro k2 w hw
    simp [hydrate, hw, hydrateKey]

/-- Witness for C4: with a corrupt `fontSize` record and a readable `theme`
record, hydration keeps the default `fontSize` and restores `theme`. -/
theorem C4_hydration_isolation_witness :
    hydrate mixedStorage initialState PrefKey.fontSize = initialState PrefKey.fontSize ∧
    hydrate mixedStorage initialState PrefKey.theme = JsonVal.str "dark" :=
  ⟨(C4_hydration_isolation mixedStorage initialState PrefKey.fontSize (by decide)).1,
   (C4_hydration_isolation mixedStorage initialState PrefKey.fontSize (by decide)).2
     PrefKey.theme (JsonVal.str "dark") (by decide)⟩

/-- C5: when the durable write of a persist fails, the failure is swallowed:
the in-memory snapshot is exactly the one the `set` produced (the written
key holds `v`), and the storage backend is unchanged — no error escapes. -/
theorem C5_persist_failure_swallowed (st : Storage) (s : Memory) (k : PrefKey) (v : JsonVal) :
    (setAndPersist false st s k v).1 = setPref s k v ∧
    get (setAndPersist false st s k v).1 k = v ∧
    (setAndPersist false st s k v).2 = st :=
  ⟨rfl, by simp [setAndPersist, get_def, setPref], rfl⟩

/-- C6: applying the `Large print` preset yields `fontSize = 22`,
`lineHeight = 1.9`, `theme = "high-contrast"`, and leaves `inputText` at its
pre-apply value, for every starting snapshot. -/
theorem C6_large_print_preset (s : Memory) :
    applyPreset "Large print" s = Except.ok (presetLargePrint s) ∧
    get (presetLargePrint s) PrefKey.fontSize = JsonVal.num 22 ∧
    get (presetLargePrint s) PrefKey.lineHeight = JsonVal.num 1.9 ∧
    get (presetLargePrint s) PrefKey.theme = JsonVal.str "high-contrast" ∧
    get (presetLargePrint s) PrefKey.inputText = get s PrefKey.inputText :=
  ⟨rfl, rfl, rfl, rfl, rfl⟩

/-- C7: applying a preset by name fails with `UnknownPreset` exactly when
the name is outside the fixed set `{Default, Reader, Dyslexia-friendly,
Large print}`, and succeeds exactly when the name is in that set. -/
theorem C7_unknown_preset (name : String) (s : Memory) :
    (applyPreset name s = Except.error "UnknownPreset" ↔
      name ∉ ["Default", "Reader", "Dyslexia-friendly", "Large print"]) ∧
    ((∃ s2, applyPreset name s = Except.ok s2) ↔
      name ∈ ["Default", "Reader", "Dyslexia-friendly", "Large print"]) := by
  by_cases h1 : name = "Default"
  · subst h1; constructor <;> simp [applyPreset, presets, List.lookup]
  · by_cases h2 : name = "Reader"
    · subst h2; constructor <;> simp [applyPreset, presets, List.lookup]
    · by_cases h3 : name = "Dyslexia-friendly"
      · subst h3; constructor <;> simp [applyPreset, presets, List.lookup]
      · by_cases h4 : name = "Large print"
        · subst h4; constructor <;> simp [applyPreset, presets, List.lookup]
        · have e1 : (name == "Default") = false := beq_eq_false_iff_ne.mpr h1
          have e2 : (name == "Reader") = false := beq_eq_false_iff_ne.mpr h2
          have e3 : (name == "Dyslexia-friendly") = false := beq_eq_false_iff_ne.mpr h3
          have e4 : (name == "Large print") = false := beq_eq_false_iff_ne.mpr h4
          constructor <;>
            simp [applyPreset, presets, List.lookup, e1, e2, e3, e4, h1, h2, h3, h4]

/-- C8: the style projection is a total function of the snapshot producing
the complete variable set — font-size is the value plus "px", line-height
the bare rendered number, letter-spacing the value plus "em", word-spacing
the value plus "px", max-width the value plus "ch", paragraph spacing the
value plus "em", the font stack is selected by `fontFamily`, and the theme
is written as the root `data-theme` attribute, not as a style variable. -/
theorem C8_projection_mapping (numStr : ℚ → String) (s : Snapshot) :
    (project numStr s).vars.readerFontSize = numStr s.fontSize ++ "px" ∧
    (project numStr s).vars.readerLineHeight = numStr s.lineHeight ∧
    (project numStr s).vars.readerLetterSpacing = numStr s.letterSpacing ++ "em" ∧
    (project numStr s).vars.readerWordSpacing = numStr s.wordSpacing ++ "px" ∧
    (project numStr s).vars.readerMaxWidth = numStr s.maxWidthCh ++ "ch" ∧
    (project numStr s).vars.readerParagraphSpacing = numStr s.paraSpacingEm ++ "em" ∧
    (project numStr s).vars.readerFont =
      (if s.fontFamily = "atkinson" then "var(--font-atkinson), var(--font-sans)"
       else "var(--font-sans)") ∧
    (project numStr s).dataTheme = s.theme :=
  ⟨rfl, rfl, rfl, rfl, rfl, rfl, rfl, rfl⟩

/-- C9: a fresh store hydrated against a backend with no durable records
keeps its defaults: `fontSize = 18`, `lineHeight = 1.65`,
`maxLineWidth = 68`, `theme = "light"`. -/
theorem C9_defaults :
    get (hydrate (fun _ => Cell.absent) initialState) PrefKey.fontSize = JsonVal.num 18 ∧
    get (hydrate (fun _ => Cell.absent) initialState) PrefKey.lineHeight = JsonVal.num 1.65 ∧
    get (hydrate (fun _ => Cell.absent) initialState) PrefKey.maxLineWidth = JsonVal.num 68 ∧
    get (hydrate (fun _ => Cell.absent) initialState) PrefKey.theme = JsonVal.str "light" :=
  ⟨rfl, rfl, rfl, rfl⟩

/-- C10: hydration applies no type check and no clamping — every
successfully parsed JSON value, of whatever shape or magnitude, replaces
the in-memory value verbatim; only a throwing read or a parse failure is
treated as corruption and leaves the value untouched. -/
theorem C10_hydrate_no_validation (s : Memory) (k : PrefKey) (v : JsonVal) :
    hydrate (fun key => if key = storageKey k then Cell.stored v else Cell.absent) s k = v ∧
    hydrate (fun _ => Cell.corrupt) s k = s k ∧
    hydrate (fun _ => Cell.readFail) s k = s k := by
  refine ⟨?_, rfl, rfl⟩
  simp [hydrate, hydrateKey]
